import Mathlib

/-!
Verification of `src/calculator.cpp`, a single-pass console calculator.

The C++ program reads an integer selector and two `double` operands from
standard input, dispatches on the selector to one of four arithmetic
functions (`add`, `subtract`, `multiply`, `divide`), and prints either a
`Result: <value>` line or a diagnostic.

Shallow embedding choices:
* A C++ `double` value is embedded as `FP`: an exact rational value
  together with a flag that distinguishes the negative-zero bit pattern
  `-0.0` (whose numeric value is zero but whose representation differs
  from `+0.0`).  Arithmetic is modelled exactly over `ℚ`; the IEEE
  comparison `x == 0` is true exactly when the numeric value is zero,
  which the model captures via `FP.isZero`.
* Each write the program performs on `cout` is an element of `Out`:
  either plain text (`Out.text`, covering prompts and diagnostics) or a
  result write (`Out.result v`, for `"Result: " << v << endl` in the source).
* Standard input is embedded at the token level: `Input` records, for
  each of the three extraction attempts the program can make
  (`cin >> choice`, `cin >> num1`, `cin >> num2`), whether that
  extraction succeeds and with which value (`none` covers a malformed
  token and end of stream, the cases where `cin.fail()` becomes true).
* The observable behaviour of a run is `RunOut`: the ordered list of writes,
  the process exit code, and how many extraction attempts were made.
-/

/-- Embedding of a C++ `double`: the exact rational value together with
a flag marking the negative-zero bit pattern (`val = 0`, sign bit set).
The flag never affects the numeric value. -/
structure FP where
  val : ℚ
  negZero : Bool
deriving Repr, DecidableEq

/-- Embed an ordinary (non-negative-zero) double value. -/
def FP.lit (q : ℚ) : FP := ⟨q, false⟩

/-- The literal `-0.0`: numeric value zero, negative sign bit. -/
def FP.negZeroLit : FP := ⟨0, true⟩

/-- The IEEE comparison `x == 0` from line 19 of the source: true exactly
when the numeric value is zero (so also for `-0.0`). -/
def FP.isZero (x : FP) : Bool := x.val == 0

/-- One write to standard output: plain text (prompts and diagnostics)
or a `Result: <value>` write. -/
inductive Out where
  | text (s : String)
  | result (v : FP)
deriving Repr, DecidableEq

/-- `void add(double num1, double num2)`: prints `Result: num1 + num2`. -/
def add (num1 num2 : FP) : List Out :=
  [.result (FP.lit (num1.val + num2.val))]

/-- `void subtract(double num1, double num2)`: prints `Result: num1 - num2`. -/
def subtract (num1 num2 : FP) : List Out :=
  [.result (FP.lit (num1.val - num2.val))]

/-- `void multiply(double num1, double num2)`: prints `Result: num1 * num2`. -/
def multiply (num1 num2 : FP) : List Out :=
  [.result (FP.lit (num1.val * num2.val))]

/-- `void divide(double num1, double num2)`: if `num2 == 0` it throws
`runtime_error("Error! Division by zero.")` before writing anything;
otherwise it prints `Result: num1 / num2`.  The thrown exception is the
`Except.error` case, carrying the `what()` message. -/
def divide (num1 num2 : FP) : Except String (List Out) :=
  if num2.isZero then
    .error "Error! Division by zero."
  else
    .ok [.result (FP.lit (num1.val / num2.val))]

/-- The `switch (choice)` statement of `main` (lines 61–76): dispatches a
validated selector to one of the four operations; the `default` branch
prints `Invalid choice`.  An uncaught exception from `divide` propagates
as the `Except.error` case. -/
def dispatch (choice : Int) (num1 num2 : FP) : Except String (List Out) :=
  if choice = 1 then .ok (add num1 num2)
  else if choice = 2 then .ok (subtract num1 num2)
  else if choice = 3 then .ok (multiply num1 num2)
  else if choice = 4 then divide num1 num2
  else .ok [.text "Invalid choice"]

/-- The parse outcomes of the up-to-three extraction attempts `main` can
make on `cin`, in order: the selector as `int`, then the two operands as
`double`.  `none` means the extraction fails (`cin.fail()` is true
afterwards): a malformed token or end of input. -/
structure Input where
  selTok : Option Int
  numTok1 : Option FP
  numTok2 : Option FP
deriving Repr, DecidableEq

/-- Observable behaviour of one run: the ordered writes to standard
output, the exit code of the process, and the number of `cin`
extraction attempts performed. -/
structure RunOut where
  output : List Out
  exitCode : Int
  readsPerformed : Nat
deriving Repr, DecidableEq

/-- The menu and selector prompt printed before the first read
(lines 30–36 of the source). -/
def menuWrites : List Out :=
  [.text "Select operation:", .text "1. Add", .text "2. Subtract",
   .text "3. Multiply", .text "4. Divide", .text "Enter choice (1/2/3/4): "]

/-- `int main()` (lines 26–82): prints the menu, reads and validates the
selector, reads and validates each operand in turn (returning exit code 1
with `Invalid input` on the first failure), then dispatches inside a
`try` block whose `catch` prints the message carried by the exception;
the dispatch path always returns exit code 0. -/
def mainRun (inp : Input) : RunOut :=
  match inp.selTok with
  | none => ⟨menuWrites ++ [.text "Invalid input"], 1, 1⟩
  | some choice =>
    if choice < 1 ∨ choice > 4 then
      ⟨menuWrites ++ [.text "Invalid input"], 1, 1⟩
    else
      match inp.numTok1 with
      | none =>
        ⟨menuWrites ++ [.text "Enter first number: ", .text "Invalid input"],
         1, 2⟩
      | some num1 =>
        match inp.numTok2 with
        | none =>
          ⟨menuWrites ++ [.text "Enter first number: ",
            .text "Enter second number: ", .text "Invalid input"], 1, 3⟩
        | some num2 =>
          let tail : List Out :=
            match dispatch choice num1 num2 with
            | .ok writes => writes
            | .error msg => [.text msg]
          ⟨menuWrites ++ [.text "Enter first number: ",
            .text "Enter second number: "] ++ tail, 0, 3⟩

/-- The `Result:` writes among the output of a run, in order. -/
def resultsOf (o : List Out) : List FP :=
  o.filterMap (fun w => match w with | .result v => some v | _ => none)

/-- Whether a diagnostic/prompt text `s` occurs among the writes. -/
def hasText (o : List Out) (s : String) : Bool :=
  o.any (fun w => match w with | .text t => t == s | _ => false)

/-- C1: for every selector in {1,2,3,4} and operands a, b (b nonzero when
the selector is 4), the run performs exactly one `Result:` write, and its
value is a+b, a-b, a*b or a/b according to the selector. -/
theorem c1_valid_run_prints_one_correct_result (s : Int) (a b : FP)
    (hs : s = 1 ∨ s = 2 ∨ s = 3 ∨ s = 4)
    (hb : s = 4 → b.isZero = false) :
    resultsOf (mainRun ⟨some s, some a, some b⟩).output =
      [FP.lit (if s = 1 then a.val + b.val
               else if s = 2 then a.val - b.val
               else if s = 3 then a.val * b.val
               else a.val / b.val)] := by
  rcases hs with h | h | h | h <;> subst h
  · rfl
  · rfl
  · rfl
  · have hz : b.isZero = false := hb rfl
    norm_num [mainRun, dispatch, divide, hz, resultsOf, menuWrites]
    rfl

/-- Witness for C1 at selector 1 with operands 2 and 3. -/
theorem c1_witness :
    ((1 : Int) = 1 ∨ (1 : Int) = 2 ∨ (1 : Int) = 3 ∨ (1 : Int) = 4) ∧
    resultsOf (mainRun ⟨some 1, some (FP.lit 2), some (FP.lit 3)⟩).output =
      [FP.lit (if (1 : Int) = 1 then (FP.lit 2).val + (FP.lit 3).val
               else if (1 : Int) = 2 then (FP.lit 2).val - (FP.lit 3).val
               else if (1 : Int) = 3 then (FP.lit 2).val * (FP.lit 3).val
               else (FP.lit 2).val / (FP.lit 3).val)] :=
  ⟨Or.inl rfl,
   c1_valid_run_prints_one_correct_result 1 (FP.lit 2) (FP.lit 3)
     (Or.inl rfl) (fun h => absurd h (by decide))⟩

/-- C2: for selector 4 and a second operand equal to zero, the run prints
the `Error! Division by zero.` line and performs no `Result:` write. -/
theorem c2_div_by_zero_diagnostic (a b : FP) (hb : b.isZero = true) :
    hasText (mainRun ⟨some 4, some a, some b⟩).output
        "Error! Division by zero." = true ∧
    resultsOf (mainRun ⟨some 4, some a, some b⟩).output = [] := by
  constructor <;>
    norm_num [mainRun, dispatch, divide, hb, hasText, resultsOf, menuWrites]

/-- Witness for C2 at operands 10 and 0. -/
theorem c2_witness :
    (FP.lit 0).isZero = true ∧
    (hasText (mainRun ⟨some 4, some (FP.lit 10), some (FP.lit 0)⟩).output
        "Error! Division by zero." = true ∧
     resultsOf (mainRun ⟨some 4, some (FP.lit 10), some (FP.lit 0)⟩).output
        = []) :=
  ⟨by decide, c2_div_by_zero_diagnostic (FP.lit 10) (FP.lit 0) (by decide)⟩

/-- C3: the exit code is 0 whenever a `Result:` write occurred, 1 whenever
the selector or either operand fails to parse or the selector is out of
range, and in the division-by-zero case the run prints the diagnostic and
still exits with code 0. -/
theorem c3_exit_codes :
    (∀ inp : Input,
      resultsOf (mainRun inp).output ≠ [] → (mainRun inp).exitCode = 0) ∧
    (∀ inp : Input,
      (inp.selTok = none ∨
       (∃ s, inp.selTok = some s ∧ (s < 1 ∨ s > 4)) ∨
       inp.numTok1 = none ∨ inp.numTok2 = none) →
      (mainRun inp).exitCode = 1) ∧
    (∀ a b : FP, b.isZero = true →
      hasText (mainRun ⟨some 4, some a, some b⟩).output
          "Error! Division by zero." = true ∧
      (mainRun ⟨some 4, some a, some b⟩).exitCode = 0) := by
  refine ⟨?_, ?_, ?_⟩
  · rintro ⟨sel, t1, t2⟩ h
    match sel, t1, t2 with
    | none, _, _ => exact absurd rfl h
    | some s, none, _ =>
      by_cases hs : s < 1 ∨ s > 4 <;> simp [mainRun, hs, resultsOf, menuWrites] at h
    | some s, some a, none =>
      by_cases hs : s < 1 ∨ s > 4 <;> simp [mainRun, hs, resultsOf, menuWrites] at h
    | some s, some a, some b =>
      by_cases hs : s < 1 ∨ s > 4
      · simp [mainRun, hs, resultsOf, menuWrites] at h
      · simp [mainRun, hs]
  · rintro ⟨sel, t1, t2⟩ h
    rcases h with h | ⟨s, hsel, hs⟩ | h | h
    · subst h; rfl
    · subst hsel; simp [mainRun, hs]
    · subst h
      match sel with
      | none => rfl
      | some s => by_cases hs : s < 1 ∨ s > 4 <;> simp [mainRun, hs]
    · subst h
      match sel, t1 with
      | none, _ => rfl
      | some s, none => by_cases hs : s < 1 ∨ s > 4 <;> simp [mainRun, hs]
      | some s, some a => by_cases hs : s < 1 ∨ s > 4 <;> simp [mainRun, hs]
  · intro a b hb
    constructor <;> norm_num [mainRun, dispatch, divide, hb, hasText, menuWrites]

/-- Witness for C3: a successful run exits 0, a failed selector parse
exits 1, and a division by zero exits 0. -/
theorem c3_witness :
    (mainRun ⟨some 1, some (FP.lit 1), some (FP.lit 1)⟩).exitCode = 0 ∧
    (mainRun ⟨none, none, none⟩).exitCode = 1 ∧
    (mainRun ⟨some 4, some (FP.lit 1), some (FP.lit 0)⟩).exitCode = 0 :=
  ⟨c3_exit_codes.1 ⟨some 1, some (FP.lit 1), some (FP.lit 1)⟩ (by decide),
   c3_exit_codes.2.1 ⟨none, none, none⟩ (Or.inl rfl),
   (c3_exit_codes.2.2 (FP.lit 1) (FP.lit 0) (by decide)).2⟩

/-- C4: when the selector token fails to parse or parses outside
{1,2,3,4}, the run prints `Invalid input`, exits with a non-zero code,
and performs only the one (selector) extraction attempt — neither
operand is read. -/
theorem c4_bad_selector_stops_before_operands (inp : Input)
    (h : inp.selTok = none ∨
         ∃ s, inp.selTok = some s ∧ (s < 1 ∨ s > 4)) :
    hasText (mainRun inp).output "Invalid input" = true ∧
    (mainRun inp).exitCode ≠ 0 ∧
    (mainRun inp).readsPerformed = 1 := by
  obtain ⟨sel, t1, t2⟩ := inp
  rcases h with h | ⟨s, hsel, hs⟩
  · simp only at h
    subst h
    refine ⟨by norm_num [mainRun, hasText, menuWrites],
      by norm_num [mainRun], rfl⟩
  · simp only at hsel
    subst hsel
    refine ⟨?_, ?_, ?_⟩ <;> simp [mainRun, hs, hasText, menuWrites]

/-- Witness for C4 with a selector parsing to 5. -/
theorem c4_witness :
    ((⟨some 5, none, none⟩ : Input).selTok = none ∨
     ∃ s, (⟨some 5, none, none⟩ : Input).selTok = some s ∧
       (s < 1 ∨ s > 4)) ∧
    (hasText (mainRun ⟨some 5, none, none⟩).output "Invalid input" = true ∧
     (mainRun ⟨some 5, none, none⟩).exitCode ≠ 0 ∧
     (mainRun ⟨some 5, none, none⟩).readsPerformed = 1) :=
  ⟨Or.inr ⟨5, rfl, Or.inr (by norm_num)⟩,
   c4_bad_selector_stops_before_operands ⟨some 5, none, none⟩
     (Or.inr ⟨5, rfl, Or.inr (by norm_num)⟩)⟩

/-- C5: for a valid selector, a failed first-operand parse yields
`Invalid input` after only two extraction attempts (the second operand is
never read), a failed second-operand parse likewise yields
`Invalid input`, and neither run performs a `Result:` write. -/
theorem c5_bad_operand_invalid_input (s : Int) (hs : ¬(s < 1 ∨ s > 4)) :
    (∀ t2 : Option FP,
      hasText (mainRun ⟨some s, none, t2⟩).output "Invalid input" = true ∧
      (mainRun ⟨some s, none, t2⟩).readsPerformed = 2 ∧
      resultsOf (mainRun ⟨some s, none, t2⟩).output = []) ∧
    (∀ a : FP,
      hasText (mainRun ⟨some s, some a, none⟩).output "Invalid input" = true ∧
      resultsOf (mainRun ⟨some s, some a, none⟩).output = []) := by
  constructor
  · intro t2
    refine ⟨?_, ?_, ?_⟩ <;> simp [mainRun, hs, hasText, resultsOf, menuWrites]
  · intro a
    constructor <;> simp [mainRun, hs, hasText, resultsOf, menuWrites]

/-- Witness for C5 at selector 1. -/
theorem c5_witness :
    ¬((1 : Int) < 1 ∨ (1 : Int) > 4) ∧
    (hasText (mainRun ⟨some 1, none, none⟩).output "Invalid input" = true ∧
     (mainRun ⟨some 1, none, none⟩).readsPerformed = 2 ∧
     resultsOf (mainRun ⟨some 1, none, none⟩).output = []) ∧
    (hasText (mainRun ⟨some 1, some (FP.lit 7), none⟩).output
        "Invalid input" = true ∧
     resultsOf (mainRun ⟨some 1, some (FP.lit 7), none⟩).output = []) :=
  ⟨by norm_num,
   (c5_bad_operand_invalid_input 1 (by norm_num)).1 none,
   (c5_bad_operand_invalid_input 1 (by norm_num)).2 (FP.lit 7)⟩

/-- C6: under the precondition that the selector passed validation,
the dispatcher takes exactly one of the four case branches and its
fallback is unreachable: no outcome of `dispatch` ever mentions
`Invalid choice`. -/
theorem c6_dispatch_fallback_unreachable (choice : Int) (num1 num2 : FP)
    (h : choice = 1 ∨ choice = 2 ∨ choice = 3 ∨ choice = 4) :
    (dispatch choice num1 num2 = .ok (add num1 num2) ∨
     dispatch choice num1 num2 = .ok (subtract num1 num2) ∨
     dispatch choice num1 num2 = .ok (multiply num1 num2) ∨
     dispatch choice num1 num2 = divide num1 num2) ∧
    (∀ writes, dispatch choice num1 num2 = .ok writes →
      hasText writes "Invalid choice" = false) := by
  have hcase : dispatch choice num1 num2 = .ok (add num1 num2) ∨
      dispatch choice num1 num2 = .ok (subtract num1 num2) ∨
      dispatch choice num1 num2 = .ok (multiply num1 num2) ∨
      dispatch choice num1 num2 = divide num1 num2 := by
    rcases h with h | h | h | h <;> subst h
    · exact Or.inl rfl
    · exact Or.inr (Or.inl rfl)
    · exact Or.inr (Or.inr (Or.inl rfl))
    · exact Or.inr (Or.inr (Or.inr rfl))
  refine ⟨hcase, ?_⟩
  intro writes hw
  rcases hcase with hc | hc | hc | hc
  · rw [hw, Except.ok.injEq] at hc
    subst hc
    rfl
  · rw [hw, Except.ok.injEq] at hc
    subst hc
    rfl
  · rw [hw, Except.ok.injEq] at hc
    subst hc
    rfl
  · rw [hw] at hc
    unfold divide at hc
    by_cases hz : num2.isZero
    · rw [if_pos hz] at hc
      exact absurd hc (by simp)
    · rw [if_neg hz, Except.ok.injEq] at hc
      subst hc
      rfl

/-- Witness for C6 at selector 2. -/
theorem c6_witness :
    ((2 : Int) = 1 ∨ (2 : Int) = 2 ∨ (2 : Int) = 3 ∨ (2 : Int) = 4) ∧
    (dispatch 2 (FP.lit 5) (FP.lit 3) = .ok (add (FP.lit 5) (FP.lit 3)) ∨
     dispatch 2 (FP.lit 5) (FP.lit 3) = .ok (subtract (FP.lit 5) (FP.lit 3)) ∨
     dispatch 2 (FP.lit 5) (FP.lit 3) = .ok (multiply (FP.lit 5) (FP.lit 3)) ∨
     dispatch 2 (FP.lit 5) (FP.lit 3) = divide (FP.lit 5) (FP.lit 3)) :=
  ⟨Or.inr (Or.inl rfl),
   (c6_dispatch_fallback_unreachable 2 (FP.lit 5) (FP.lit 3)
     (Or.inr (Or.inl rfl))).1⟩

/-- C7: the program is deterministic: two runs on identical input streams
produce identical output streams and identical exit codes. -/
theorem c7_deterministic (inp1 inp2 : Input) (h : inp1 = inp2) :
    (mainRun inp1).output = (mainRun inp2).output ∧
    (mainRun inp1).exitCode = (mainRun inp2).exitCode := by
  subst h
  exact ⟨rfl, rfl⟩

/-- Witness for C7 at a concrete input stream. -/
theorem c7_witness :
    (⟨some 3, some (FP.lit 4), some (FP.lit 2)⟩ : Input) =
      ⟨some 3, some (FP.lit 4), some (FP.lit 2)⟩ ∧
    (mainRun ⟨some 3, some (FP.lit 4), some (FP.lit 2)⟩).output =
      (mainRun ⟨some 3, some (FP.lit 4), some (FP.lit 2)⟩).output ∧
    (mainRun ⟨some 3, some (FP.lit 4), some (FP.lit 2)⟩).exitCode =
      (mainRun ⟨some 3, some (FP.lit 4), some (FP.lit 2)⟩).exitCode :=
  ⟨rfl, c7_deterministic ⟨some 3, some (FP.lit 4), some (FP.lit 2)⟩
    ⟨some 3, some (FP.lit 4), some (FP.lit 2)⟩ rfl⟩

/-- C8: `divide` tests its second operand for exact equality with zero:
it fails exactly when the numeric value of the second operand is zero,
and for every nonzero second operand (however small) it returns the
quotient. -/
theorem c8_divide_exact_zero_test (a b : FP) :
    (b.val ≠ 0 → divide a b = .ok [.result (FP.lit (a.val / b.val))]) ∧
    (b.val = 0 → divide a b = .error "Error! Division by zero.") ∧
    ((∃ msg, divide a b = .error msg) ↔ b.isZero = true) := by
  refine ⟨?_, ?_, ?_⟩
  · intro hb
    have hz : b.isZero = false := by simp [FP.isZero, hb]
    simp [divide, hz]
  · intro hb
    have hz : b.isZero = true := by simp [FP.isZero, hb]
    simp [divide, hz]
  · constructor
    · rintro ⟨msg, hmsg⟩
      by_contra hz
      simp only [Bool.not_eq_true] at hz
      simp [divide, hz] at hmsg
    · intro hz
      exact ⟨"Error! Division by zero.", by simp [divide, hz]⟩

/-- Witness for C8: dividing 1 by the tiny nonzero operand 1/1000000
succeeds. -/
theorem c8_witness :
    (FP.lit (1 / 1000000)).val ≠ 0 ∧
    divide (FP.lit 1) (FP.lit (1 / 1000000)) =
      .ok [.result (FP.lit ((FP.lit 1).val / (FP.lit (1 / 1000000)).val))] :=
  ⟨by norm_num [FP.lit],
   (c8_divide_exact_zero_test (FP.lit 1) (FP.lit (1 / 1000000))).1
     (by norm_num [FP.lit])⟩

/-- C9: with second operand `-0.0` the IEEE comparison with zero holds,
so `divide` signals the division-by-zero failure and the run prints
`Error! Division by zero.` instead of any result. -/
theorem c9_negative_zero_divisor (a : FP) :
    FP.negZeroLit.isZero = true ∧
    divide a FP.negZeroLit = .error "Error! Division by zero." ∧
    hasText (mainRun ⟨some 4, some a, some FP.negZeroLit⟩).output
        "Error! Division by zero." = true ∧
    resultsOf (mainRun ⟨some 4, some a, some FP.negZeroLit⟩).output = [] := by
  have hz : FP.negZeroLit.isZero = true := by decide
  refine ⟨hz, by simp [divide, hz], ?_, ?_⟩ <;>
    norm_num [mainRun, dispatch, divide, hz, hasText, resultsOf, menuWrites]

/-- C10: `divide` is atomic with respect to output: whenever it signals
the failure it has written nothing, so the whole run performs no
`Result:` write and the diagnostic is the only write after the prompts. -/
theorem c10_divide_failure_writes_nothing (a b : FP) (msg : String)
    (h : divide a b = .error msg) :
    resultsOf (mainRun ⟨some 4, some a, some b⟩).output = [] ∧
    (mainRun ⟨some 4, some a, some b⟩).output =
      menuWrites ++ [.text "Enter first number: ",
        .text "Enter second number: ", .text msg] := by
  have hz : b.isZero = true := by
    by_contra hz
    simp only [Bool.not_eq_true] at hz
    simp [divide, hz] at h
  have hmsg : msg = "Error! Division by zero." := by
    simp [divide, hz] at h
    exact h.symm
  subst hmsg
  constructor <;>
    norm_num [mainRun, dispatch, divide, hz, resultsOf, menuWrites]

/-- Witness for C10 with operands 10 and 0. -/
theorem c10_witness :
    divide (FP.lit 10) (FP.lit 0) = .error "Error! Division by zero." ∧
    (resultsOf (mainRun ⟨some 4, some (FP.lit 10), some (FP.lit 0)⟩).output
        = [] ∧
     (mainRun ⟨some 4, some (FP.lit 10), some (FP.lit 0)⟩).output =
       menuWrites ++ [.text "Enter first number: ",
         .text "Enter second number: ",
         .text "Error! Division by zero."]) :=
  ⟨rfl,
   c10_divide_failure_writes_nothing (FP.lit 10) (FP.lit 0)
     "Error! Division by zero." rfl⟩
